import Mathlib

/-!
Shallow embedding of the theme auto-switch scheduler (`src/theme.rs`).

Time model:
* Wall-clock time is measured in whole seconds since `UNIX_EPOCH` (`Nat`).
* The monotonic clock (`tokio::time::Instant`) is measured in whole seconds
  from an arbitrary monotonic epoch (`Nat`); `checked_add` fails above an
  abstract upper bound `instantMax`, `checked_sub` fails below the monotonic
  epoch, exactly like the `Option`-returning arithmetic on `Instant`.
* A `chrono::DateTime<Local>` is modelled by its local calendar-day index
  together with its wall-clock second count; the model treats a calendar day
  as exactly 86400 seconds (it ignores DST shifts, which no claim touches).
* The external astronomical function `sunrise::sunrise_sunset` is a parameter
  `astro : Int → Int → Nat → Int × Int` giving (sunrise_epoch, sunset_epoch)
  for (lat, long, local day); the spec treats it as an arbitrary pure
  function that is range-checked by the caller.
* Latitude/longitude are opaque pass-through data here, modelled as `Int`.
-/

deriving instance DecidableEq for Except

namespace CosmicTheme

/-- Abstract upper bound of the monotonic `Instant` range. -/
def instantMax : Nat := 2 ^ 64 - 1

/-- Largest second count representable as a `SystemTime` offset from
`UNIX_EPOCH` (`i64::MAX` seconds on the target platform). -/
def systemTimeMax : Nat := 2 ^ 63 - 1

/-- Abstract upper bound on the local calendar-day index
(`chrono::NaiveDate::MAX`). -/
def dateMax : Nat := 2 ^ 32

/-- Rust `Instant::checked_add` with a `Duration` of `d` seconds. -/
def checked_add (i d : Nat) : Option Nat :=
  if i + d ≤ instantMax then some (i + d) else none

/-- Rust `Instant::checked_sub` with a `Duration` of `d` seconds: fails when
the result would lie before the monotonic epoch. -/
def checked_sub (i d : Nat) : Option Nat :=
  if d ≤ i then some (i - d) else none

/-- Rust `Instant::checked_duration_since`: `some (a - b)` when `a` is not
earlier than `b`, otherwise `none`. -/
def checked_duration_since (a b : Nat) : Option Nat :=
  if b ≤ a then some (a - b) else none

/-- A `chrono::DateTime<Local>`: local calendar-day index plus the wall-clock
seconds since `UNIX_EPOCH` of the same moment (`SystemTime::from`). -/
structure LDateTime where
  date : Nat
  wallSecs : Nat
deriving DecidableEq, Repr

/-- Rust `DateTime::checked_add_days`: fails past the representable date
range. -/
def checked_add_days (dt : LDateTime) (n : Nat) : Option LDateTime :=
  if dt.date + n ≤ dateMax then some ⟨dt.date + n, dt.wallSecs + n * 86400⟩
  else none

/-- The `SunriseSunset` struct of `src/theme.rs`: the DayWindow. -/
structure SunriseSunset where
  last_update : LDateTime
  sunrise : Nat
  sunset : Nat
  lat : Int
  long : Int
deriving DecidableEq, Repr

/-- The `st_to_instant` closure inside `SunriseSunset::new`: anchors an
absolute wall-clock second count `st` to the monotonic clock using the pair
(`nw` = wall now, `instant_now` = monotonic now) captured at construction. -/
def st_to_instant (instant_now nw st : Nat) : Except String Nat :=
  if nw < st then
    match checked_add instant_now (st - nw) with
    | some i => .ok i
    | none => .error "Failed to convert system time to instant"
  else
    match checked_sub instant_now (nw - st) with
    | some i => .ok i
    | none => .error "Failed to convert system time to instant"

/-- Rust `SunriseSunset::new(lat, long, now)`; `instant_now` is the
`Instant::now()` sample taken at the top of the function, and `astro` is the
external `sunrise::sunrise_sunset`. -/
def new (astro : Int → Int → Nat → Int × Int) (lat long : Int)
    (now : LDateTime) (instant_now : Nat) : Except String SunriseSunset :=
  let system_now := now.wallSecs
  let se := astro lat long now.date
  if se.1 < 0 then .error "out of range integral type conversion attempted"
  else if systemTimeMax < se.1.toNat then .error "Failed to calculate sunrise time"
  else if se.2 < 0 then .error "out of range integral type conversion attempted"
  else if systemTimeMax < se.2.toNat then .error "Failed to calculate sunset time"
  else
    match st_to_instant instant_now system_now se.1.toNat,
        st_to_instant instant_now system_now se.2.toNat with
    | .ok sr, .ok ss => .ok ⟨now, sr, ss, lat, long⟩
    | .error e, _ => .error e
    | .ok _, .error e => .error e

/-- Rust `SunriseSunset::is_dark`; `today` is `Local::now().date_naive()`
and `now` the `Instant::now()` sample. -/
def is_dark (w : SunriseSunset) (today : Nat) (now : Nat) : Except String Bool :=
  if w.last_update.date ≠ today then .error "SunriseSunset out of date"
  else .ok (decide (now < w.sunrise) || decide (w.sunset ≤ now))

/-- Rust `SunriseSunset::next`; `now` is the `Instant::now()` sample. -/
def next (w : SunriseSunset) (now : Nat) : Except String Nat :=
  if (checked_duration_since w.sunrise now).isSome then .ok w.sunrise
  else if (checked_duration_since w.sunset now).isSome then .ok w.sunset
  else .error "SunriseSunset instants have already passed..."

/-- Rust `SunriseSunset::update_next` (`&mut self`): returns the `Result` paired
with the final value of `self`. `m1`, `m2`, `m3` are the successive
`Instant::now()` samples (first `next`, the reconstruction, final `next`). -/
def update_next (astro : Int → Int → Nat → Int × Int) (w : SunriseSunset)
    (m1 m2 m3 : Nat) : Except String Nat × SunriseSunset :=
  match next w m1 with
  | .ok i => (.ok i, w)
  | .error _ =>
    match checked_add_days w.last_update 1 with
    | none => (.error "Failed to calculate next date for theme auto-switch.", w)
    | some tomorrow =>
      match new astro w.lat w.long tomorrow m2 with
      | .error e => (.error e, w)
      | .ok w2 => (next w2 m3, w2)

/-- NextDeadline as the spec words it (refinement reference, not translated
from the source): the nearer of the two deadlines among those that have not
yet elapsed, failing exactly when both are in the past. -/
def nextSpec (w : SunriseSunset) (now : Nat) : Except String Nat :=
  if now ≤ w.sunrise then
    if now ≤ w.sunset then .ok (min w.sunrise w.sunset) else .ok w.sunrise
  else if now ≤ w.sunset then .ok w.sunset
  else .error "AllDeadlinesElapsed"

/-- The two booleans of `cosmic_theme::ThemeMode` that `watch_theme` reads
and writes. -/
structure ThemeMode where
  auto_switch : Bool
  dark : Bool
deriving DecidableEq, Repr

/-- One event resolved by the `tokio::select!` race of `watch_theme`:
a decoded config change (the `ThemeMode` after `update_keys`), closure of the
config channel (`recv` returned `None`), expiry of the sleep-until-deadline
timer, a resolved location fix, or exhaustion of the location stream. -/
inductive LoopEvent where
  | configChanged (tm : ThemeMode)
  | configClosed
  | timerFired
  | locationUpdate (lat long : Int)
  | locationClosed
deriving DecidableEq, Repr

/-- An external write issued by the loop (`theme_mode.set_is_dark`). -/
inductive Effect where
  | setIsDark (b : Bool)
deriving DecidableEq, Repr

/-- The loop-local mutable state of `watch_theme`. -/
structure LoopState where
  theme_mode : ThemeMode
  window : Option SunriseSunset
deriving DecidableEq, Repr

/-- Outcome of one loop iteration: continue with a new state having issued
the listed `set_is_dark` calls, return `Err` (fatal), or panic. -/
inductive StepResult where
  | ok (s : LoopState) (effects : List Effect)
  | fatal (msg : String)
  | panic (msg : String)
deriving DecidableEq, Repr

/-- The ambient world of one iteration: the astronomical function, the
`Local::now()` reading and the `Instant::now()` reading (the model takes the
clock readings of a single iteration to be equal). -/
structure Env where
  astro : Int → Int → Nat → Int × Int
  now : LDateTime
  mono : Nat

/-- Rust `Result::ok()` on the `is_dark` result. -/
def result_ok : Except String Bool → Option Bool
  | .ok b => some b
  | .error _ => none

/-- The body of the `tokio::select!` in `watch_theme`, given the event that
won the race.  State mirrors the source branch by branch, including the
`unwrap` in the location branch. -/
def handleEvent (env : Env) (st : LoopState) (ev : LoopEvent) : StepResult :=
  match ev with
  | .configClosed => .fatal "Theme mode changes failed"
  | .configChanged tm =>
    let auto_switch_prev := st.theme_mode.auto_switch
    if !tm.auto_switch && auto_switch_prev then
      match st.window.bind (fun w => result_ok (is_dark w env.now.date env.mono)) with
      | none => .ok { st with theme_mode := tm } []
      | some b => .ok { st with theme_mode := tm } [.setIsDark b]
    else .ok { st with theme_mode := tm } []
  | .timerFired =>
    if !st.theme_mode.auto_switch then .ok st []
    else
      match st.window.bind (fun w => result_ok (is_dark w env.now.date env.mono)) with
      | none => .ok st []
      | some b => .ok st [.setIsDark b]
  | .locationClosed => .fatal "No location in the update"
  | .locationUpdate lat long =>
    let window2 := match new env.astro lat long env.now env.mono with
      | .ok s => some s
      | .error _ => st.window
    match window2 with
    | none => .panic "called Option::unwrap() on a None value"
    | some w =>
      match result_ok (is_dark w env.now.date env.mono) with
      | none => .ok { st with window := window2 } []
      | some b => .ok { st with window := window2 } [.setIsDark b]

/-- One full iteration of the `watch_theme` loop: the deadline refresh at the
top (`s.update_next()?`, fatal on error, mutating the window), then the
select race resolved to `ev`. -/
def step (env : Env) (st : LoopState) (ev : LoopEvent) : StepResult :=
  match st.window with
  | none => handleEvent env st ev
  | some w =>
    match update_next env.astro w env.mono env.mono env.mono with
    | (.error e, _) => .fatal e
    | (.ok _, w2) => handleEvent env { st with window := some w2 } ev

/-- Fixture: astronomical output whose sunset epoch precedes its sunrise
epoch (the source imposes no ordering on the external function's output). -/
def astroC2 : Int → Int → Nat → Int × Int := fun _ _ _ => (100, 50)

/-- Fixture: the window `new astroC2 0 0 ⟨5, 0⟩ 1000` constructs. -/
def wC2 : SunriseSunset := ⟨⟨5, 0⟩, 1100, 1050, 0, 0⟩

/-- Fixture: astronomical output with equal sunrise and sunset epochs. -/
def astroC3 : Int → Int → Nat → Int × Int := fun _ _ _ => (100, 100)

/-- Fixture: the window `new astroC3 0 0 ⟨5, 0⟩ 1000` constructs. -/
def wC3 : SunriseSunset := ⟨⟨5, 0⟩, 1100, 1100, 0, 0⟩

/-- Fixture: astronomical output with both instants in the future. -/
def astroC5 : Int → Int → Nat → Int × Int := fun _ _ _ => (100, 150)

/-- Fixture: the window `new astroC5 0 0 ⟨5, 0⟩ 1000` constructs. -/
def wC5 : SunriseSunset := ⟨⟨5, 0⟩, 1100, 1150, 0, 0⟩

/-- Fixture: astronomical output with negative epochs. -/
def astroNeg : Int → Int → Nat → Int × Int := fun _ _ _ => (-1, -1)

/-- Fixture: astronomical output fixed at the epoch. -/
def astroZero : Int → Int → Nat → Int × Int := fun _ _ _ => (0, 0)

/-- Fixture: an ordinary window with sunrise before sunset. -/
def wSimple : SunriseSunset := ⟨⟨5, 0⟩, 5, 9, 0, 0⟩

/-- Fixture: a window dated at the last representable calendar day, with both
deadlines already elapsed at any positive monotonic instant. -/
def wOver : SunriseSunset := ⟨⟨dateMax, 0⟩, 0, 0, 0, 0⟩

/-- Fixture: a window built late in local day 5 whose deadlines have both
elapsed by monotonic instant 1000. -/
def w10 : SunriseSunset := ⟨⟨5, 90000⟩, 10, 20, 0, 0⟩

/-- Fixture: astronomical output lying shortly before the wall-clock anchor
of day 6, so the rollover window's deadlines are already elapsed too. -/
def astro10 : Int → Int → Nat → Int × Int := fun _ _ _ => (175500, 175600)

/-- Fixture: the window `new astro10 0 0 ⟨6, 176400⟩ 1000` constructs
(the rollover of `w10`). -/
def w10b : SunriseSunset := ⟨⟨6, 176400⟩, 100, 200, 0, 0⟩

/-- Fixture environment: day 5, wall second 0, monotonic instant 1000,
astronomical function `astroC2`. -/
def envC7 : Env := ⟨astroC2, ⟨5, 0⟩, 1000⟩

/-- Fixture environment: day 7, monotonic instant 10, astronomical function
`astroZero`. -/
def envO : Env := ⟨astroZero, ⟨7, 0⟩, 10⟩

/-- Fixture environment: day 0, monotonic instant 0, astronomical function
`astroNeg` (construction always fails). -/
def envC1 : Env := ⟨astroNeg, ⟨0, 0⟩, 0⟩

/-- Helper: a successful construction stores the supplied datetime and
coordinates verbatim. -/
theorem new_ok_fields (astro : Int → Int → Nat → Int × Int) (lat long : Int)
    (dt : LDateTime) (m : Nat) (w : SunriseSunset)
    (h : new astro lat long dt m = .ok w) :
    w.last_update = dt ∧ w.lat = lat ∧ w.long = long := by
  simp only [new] at h
  split at h
  · exact Except.noConfusion h
  split at h
  · exact Except.noConfusion h
  split at h
  · exact Except.noConfusion h
  split at h
  · exact Except.noConfusion h
  split at h
  · injection h with h2
    subst h2
    exact ⟨rfl, rfl, rfl⟩
  · exact Except.noConfusion h
  · exact Except.noConfusion h

/-- Claim C1: in the location-update branch, a failed DayWindow construction
with no prior window reaches the `unwrap` on the still-empty window and
panics; the loop does not log-and-continue on this path. -/
theorem c1_location_failure_panics :
    step envC1 ⟨⟨true, false⟩, none⟩ (.locationUpdate 0 0)
      = .panic "called Option::unwrap() on a None value" := by decide

/-- Claim C2 counterexample: a constructible DayWindow whose sunset deadline
precedes its sunrise deadline; with both deadlines still ahead, `next`
returns the sunrise deadline (1100) although the sunset deadline (1050) is
the nearer one that has not yet elapsed. -/
theorem c2_counterexample :
    new astroC2 0 0 ⟨5, 0⟩ 1000 = .ok wC2 ∧
    next wC2 1000 = .ok wC2.sunrise ∧
    nextSpec wC2 1000 = .ok wC2.sunset ∧
    wC2.sunset < wC2.sunrise ∧ 1000 ≤ wC2.sunset := by decide

/-- Claim C2 (amended): whenever the sunrise deadline is at or before the
sunset deadline, `next` agrees with the spec's "nearer non-elapsed deadline"
function on every success value; unconditionally, `next` fails exactly when
both deadlines are strictly in the past. -/
theorem c2_next_nearest (w : SunriseSunset) (now : Nat) :
    (w.sunrise ≤ w.sunset → ∀ d, next w now = .ok d ↔ nextSpec w now = .ok d) ∧
    (next w now = .error "SunriseSunset instants have already passed..." ↔
      (w.sunrise < now ∧ w.sunset < now)) := by
  unfold next nextSpec checked_duration_since
  constructor
  · intro hss d
    by_cases h1 : now ≤ w.sunrise
    · by_cases h2 : now ≤ w.sunset
      · simp [h1, h2, min_eq_left hss]
      · simp [h1, h2]
    · by_cases h2 : now ≤ w.sunset
      · simp [h1, h2]
      · simp [h1, h2]
  · by_cases h1 : now ≤ w.sunrise
    · simp [h1]
    · by_cases h2 : now ≤ w.sunset
      · simp [h1, h2]
      · simp [h1, h2]
        omega

/-- Witness for the amended C2 theorem at a concrete ordinary window. -/
theorem c2_next_nearest_witness :
    next wSimple 3 = .ok 5 ↔ nextSpec wSimple 3 = .ok 5 :=
  (c2_next_nearest wSimple 3).1 (by decide) 5

/-- Claim C3 counterexample: a constructible DayWindow with equal sunrise and
sunset deadlines; at `now` equal to the sunrise deadline, `is_dark` returns
`true`, not `false` as the claim requires. -/
theorem c3_counterexample :
    new astroC3 0 0 ⟨5, 0⟩ 1000 = .ok wC3 ∧ wC3.sunrise = 1100 ∧
    is_dark wC3 5 wC3.sunrise = .ok true := by decide

/-- Claim C3 (amended): for a non-stale window, `is_dark` succeeds and
returns true iff `now` is strictly before the sunrise deadline or at/after
the sunset deadline; at `now` equal to the sunset deadline it returns true,
and at `now` equal to the sunrise deadline it returns false provided the
sunrise deadline is strictly before the sunset deadline. -/
theorem c3_is_dark_boundaries (w : SunriseSunset) (today now : Nat)
    (h : w.last_update.date = today) :
    (∃ b, is_dark w today now = .ok b) ∧
    (is_dark w today now = .ok true ↔ (now < w.sunrise ∨ w.sunset ≤ now)) ∧
    is_dark w today w.sunset = .ok true ∧
    (w.sunrise < w.sunset → is_dark w today w.sunrise = .ok false) := by
  have hd : ¬ w.last_update.date ≠ today := fun hc => hc h
  unfold is_dark
  simp only [if_neg hd]
  refine ⟨⟨_, rfl⟩, ?_, ?_, fun hlt => ?_⟩
  · simp only [Except.ok.injEq, Bool.or_eq_true, decide_eq_true_eq]
  · simp
  · simp [Nat.lt_irrefl, Nat.not_le.mpr hlt]

/-- Witness for the amended C3 theorem at a concrete ordinary window. -/
theorem c3_boundaries_witness : is_dark wSimple 5 wSimple.sunrise = .ok false :=
  (c3_is_dark_boundaries wSimple 5 3 rfl).2.2.2 (by decide)

/-- Claim C4: with a current local date different from the window's
reference date, `is_dark` always fails with the stale-window error and never
returns a boolean. -/
theorem c4_stale_window (w : SunriseSunset) (today now : Nat)
    (h : w.last_update.date ≠ today) :
    is_dark w today now = .error "SunriseSunset out of date" := by
  simp [is_dark, h]

/-- Witness for C4 at a concrete stale window. -/
theorem c4_stale_witness : is_dark wSimple 7 0 = .error "SunriseSunset out of date" :=
  c4_stale_window wSimple 7 0 (by decide)

/-- Helper: closed form of the anchoring conversion. -/
theorem st_to_instant_eq (m nw st : Nat) :
    st_to_instant m nw st =
      if nw < st then
        (if m + (st - nw) ≤ instantMax then .ok (m + (st - nw))
          else .error "Failed to convert system time to instant")
      else
        (if nw - st ≤ m then .ok (m - (nw - st))
          else .error "Failed to convert system time to instant") := by
  unfold st_to_instant checked_add checked_sub
  split_ifs <;> rfl

/-- Claim C5: `st_to_instant` anchors a future absolute instant as
monotonic-now plus the wall-clock difference and a past one as monotonic-now
minus it, failing with the conversion error when the `Instant` arithmetic
leaves its representable range; consequently, constructing a window whose
sunrise instant lies strictly in the wall-clock future and immediately
querying `next` yields a deadline exceeding monotonic-now by exactly the
absolute-time difference. -/
theorem c5_anchoring (m nw st : Nat) (astro : Int → Int → Nat → Int × Int)
    (lat long : Int) (dt : LDateTime) (w : SunriseSunset) :
    (nw < st → m + (st - nw) ≤ instantMax →
      st_to_instant m nw st = .ok (m + (st - nw))) ∧
    (st ≤ nw → nw - st ≤ m →
      st_to_instant m nw st = .ok (m - (nw - st))) ∧
    (nw < st → instantMax < m + (st - nw) →
      st_to_instant m nw st = .error "Failed to convert system time to instant") ∧
    (st ≤ nw → m < nw - st →
      st_to_instant m nw st = .error "Failed to convert system time to instant") ∧
    (new astro lat long dt m = .ok w → dt.wallSecs < (astro lat long dt.date).1.toNat →
      next w m = .ok (m + ((astro lat long dt.date).1.toNat - dt.wallSecs))) := by
  refine ⟨?_, ?_, ?_, ?_, ?_⟩
  · intro h1 h2
    rw [st_to_instant_eq, if_pos h1, if_pos h2]
  · intro h1 h2
    rw [st_to_instant_eq, if_neg (by omega), if_pos h2]
  · intro h1 h2
    rw [st_to_instant_eq, if_pos h1, if_neg (by omega)]
  · intro h1 h2
    rw [st_to_instant_eq, if_neg (by omega), if_neg (by omega)]
  · intro hok hfut
    simp only [new] at hok
    split at hok
    · exact Except.noConfusion hok
    split at hok
    · exact Except.noConfusion hok
    split at hok
    · exact Except.noConfusion hok
    split at hok
    · exact Except.noConfusion hok
    split at hok
    · rename_i sr ss heq1 heq2
      injection hok with hw
      subst hw
      rw [st_to_instant_eq, if_pos hfut] at heq1
      split at heq1
      · injection heq1 with hsr
        subst hsr
        simp [next, checked_duration_since, Nat.le_add_right]
      · exact Except.noConfusion heq1
    · exact Except.noConfusion hok
    · exact Except.noConfusion hok

/-- Witness for C5: concrete anchoring of a future instant and the
round-trip through `new` and `next`. -/
theorem c5_anchoring_witness :
    st_to_instant 1000 0 100 = .ok 1100 ∧ next wC5 1000 = .ok 1100 :=
  ⟨(c5_anchoring 1000 0 100 astroC5 0 0 ⟨5, 0⟩ wC5).1 (by decide) (by decide),
    (c5_anchoring 1000 0 100 astroC5 0 0 ⟨5, 0⟩ wC5).2.2.2.2 (by decide) (by decide)⟩

/-- Claim C6: when `next` has failed, `update_next` advances the reference
date by one day and reconstructs with the same coordinates, and a date
overflow is a reported error (the window untouched), not a panic. -/
theorem c6_advance (astro : Int → Int → Nat → Int × Int) (w : SunriseSunset)
    (m1 m2 m3 : Nat) (e : String) (h : next w m1 = .error e) :
    (dateMax < w.last_update.date + 1 →
      update_next astro w m1 m2 m3 =
        (.error "Failed to calculate next date for theme auto-switch.", w)) ∧
    (∀ w2, w.last_update.date + 1 ≤ dateMax →
      new astro w.lat w.long ⟨w.last_update.date + 1, w.last_update.wallSecs + 86400⟩ m2
        = .ok w2 →
      (update_next astro w m1 m2 m3).2 = w2 ∧
      w2.last_update = (⟨w.last_update.date + 1, w.last_update.wallSecs + 86400⟩ : LDateTime) ∧
      w2.lat = w.lat ∧ w2.long = w.long) := by
  constructor
  · intro hov
    have hca : checked_add_days w.last_update 1 = none := by
      unfold checked_add_days
      rw [if_neg (by omega)]
    unfold update_next
    rw [h, hca]
  · intro w2 hle hnew
    have hca : checked_add_days w.last_update 1
        = some ⟨w.last_update.date + 1, w.last_update.wallSecs + 86400⟩ := by
      unfold checked_add_days
      rw [if_pos (by omega)]
    obtain ⟨f1, f2, f3⟩ := new_ok_fields astro w.lat w.long _ m2 w2 hnew
    refine ⟨?_, f1, f2, f3⟩
    unfold update_next
    simp only [h, hca, hnew]

/-- Witness for C6: a concrete rollover to the next calendar day. -/
theorem c6_advance_witness :
    (update_next astro10 w10 1000 1000 1000).2 = w10b ∧
    w10b.last_update = (⟨6, 176400⟩ : LDateTime) ∧
    w10b.lat = w10.lat ∧ w10b.long = w10.long :=
  (c6_advance astro10 w10 1000 1000 1000 "SunriseSunset instants have already passed..."
    (by decide)).2 w10b (by decide) (by decide)

/-- Claim C7 counterexample: with auto-switch already off, a location update
still issues a `set_is_dark` call, so automatic applies do occur while
auto-switch stays off. -/
theorem c7_counterexample :
    step envC7 ⟨⟨false, true⟩, none⟩ (.locationUpdate 0 0)
      = .ok ⟨⟨false, true⟩, some wC2⟩ [.setIsDark true] := by decide

/-- Claim C7 (amended): a config change that turns auto-switch from on to
off issues exactly one `set_is_dark` with the current window's `is_dark`
value when a window exists and the query succeeds, and none otherwise; while
auto-switch stays off the timer branch never issues an apply (location
updates, however, still do). -/
theorem c7_config_off (env : Env) (st : LoopState) (tm : ThemeMode)
    (hprev : st.theme_mode.auto_switch = true) (hnew : tm.auto_switch = false) :
    (∀ w b, st.window = some w → is_dark w env.now.date env.mono = .ok b →
      handleEvent env st (.configChanged tm)
        = .ok { st with theme_mode := tm } [.setIsDark b]) ∧
    (st.window = none →
      handleEvent env st (.configChanged tm) = .ok { st with theme_mode := tm } []) ∧
    (∀ w e, st.window = some w → is_dark w env.now.date env.mono = .error e →
      handleEvent env st (.configChanged tm) = .ok { st with theme_mode := tm } []) ∧
    (∀ st2 : LoopState, st2.theme_mode.auto_switch = false →
      handleEvent env st2 .timerFired = .ok st2 []) := by
  refine ⟨?_, ?_, ?_, ?_⟩
  · intro w b hw hid
    simp [handleEvent, hprev, hnew, hw, hid, result_ok]
  · intro hw
    simp [handleEvent, hprev, hnew, hw]
  · intro w e hw hid
    simp [handleEvent, hprev, hnew, hw, hid, result_ok]
  · intro st2 h2
    simp [handleEvent, h2]

/-- Witness for the amended C7 theorem: a concrete on-to-off transition with
a live window issuing exactly one apply. -/
theorem c7_config_off_witness :
    handleEvent envC7 ⟨⟨true, false⟩, some wC2⟩ (.configChanged ⟨false, false⟩)
      = .ok ⟨⟨false, false⟩, some wC2⟩ [.setIsDark true] :=
  (c7_config_off envC7 ⟨⟨true, false⟩, some wC2⟩ ⟨false, false⟩ rfl rfl).1 wC2 true rfl
    (by decide)

/-- Claim C8 counterexample: the loop also returns a fatal error with both
streams alive, when the top-of-iteration window refresh fails (here: date
arithmetic overflow), so closures are not the only fatal exits. -/
theorem c8_counterexample :
    step envO ⟨⟨true, false⟩, some wOver⟩ .timerFired
      = .fatal "Failed to calculate next date for theme auto-switch." := by decide

/-- Claim C8 (amended): closure of the config channel and exhaustion of the
location stream each always make the iteration return a fatal error — never
a no-op — whatever the rest of the state. -/
theorem c8_closures_fatal (env : Env) (st : LoopState) :
    (∃ e, step env st .configClosed = .fatal e) ∧
    (∃ e, step env st .locationClosed = .fatal e) := by
  unfold step
  cases hw : st.window with
  | none =>
    exact ⟨⟨"Theme mode changes failed", by simp [handleEvent]⟩,
      ⟨"No location in the update", by simp [handleEvent]⟩⟩
  | some w =>
    rcases hun : update_next env.astro w env.mono env.mono env.mono with ⟨r, w2⟩
    cases r with
    | error e =>
      exact ⟨⟨e, by simp [hun]⟩, ⟨e, by simp [hun]⟩⟩
    | ok i =>
      exact ⟨⟨"Theme mode changes failed", by simp [hun, handleEvent]⟩,
        ⟨"No location in the update", by simp [hun, handleEvent]⟩⟩

/-- Claim C9: if either epoch returned by the astronomical function is
negative or beyond the representable `SystemTime` range, construction fails
with an error instead of producing a window. -/
theorem c9_range_guard (astro : Int → Int → Nat → Int × Int) (lat long : Int)
    (dt : LDateTime) (m : Nat)
    (h : (astro lat long dt.date).1 < 0 ∨
      (systemTimeMax : Int) < (astro lat long dt.date).1 ∨
      (astro lat long dt.date).2 < 0 ∨
      (systemTimeMax : Int) < (astro lat long dt.date).2) :
    ∃ e, new astro lat long dt m = .error e := by
  simp only [new]
  split_ifs with h1 h2 h3 h4
  · exact ⟨_, rfl⟩
  · exact ⟨_, rfl⟩
  · exact ⟨_, rfl⟩
  · exact ⟨_, rfl⟩
  · exfalso
    rcases h with h | h | h | h <;> omega

/-- Witness for C9: a negative sunrise epoch is rejected. -/
theorem c9_range_guard_witness : ∃ e, new astroNeg 0 0 ⟨0, 0⟩ 0 = .error e :=
  c9_range_guard astroNeg 0 0 ⟨0, 0⟩ 0 (Or.inl (by decide))

/-- Claim C10 counterexample: a window whose rollover reconstruction
succeeds but whose new deadlines are also already elapsed; `update_next`
returns an error, yet the window has been replaced. -/
theorem c10_counterexample :
    next w10 1000 = .error "SunriseSunset instants have already passed..." ∧
    (update_next astro10 w10 1000 1000 1000).1
      = .error "SunriseSunset instants have already passed..." ∧
    (update_next astro10 w10 1000 1000 1000).2 = w10b ∧
    w10b ≠ w10 := by decide

/-- Claim C10 (amended): on date-arithmetic overflow or a failed
reconstruction the window is left exactly as it was, and the window is
replaced exactly when reconstruction succeeds — including the error return
in which the freshly reconstructed window's deadlines are already past. -/
theorem c10_state_on_error (astro : Int → Int → Nat → Int × Int)
    (w : SunriseSunset) (m1 m2 m3 : Nat) :
    (checked_add_days w.last_update 1 = none →
      (update_next astro w m1 m2 m3).2 = w) ∧
    (∀ tomorrow e, checked_add_days w.last_update 1 = some tomorrow →
      new astro w.lat w.long tomorrow m2 = .error e →
      (update_next astro w m1 m2 m3).2 = w) ∧
    (∀ w2, (update_next astro w m1 m2 m3).2 = w2 → w2 ≠ w →
      ∃ tomorrow, checked_add_days w.last_update 1 = some tomorrow ∧
        new astro w.lat w.long tomorrow m2 = .ok w2) := by
  unfold update_next
  cases hn : next w m1 with
  | ok i =>
    dsimp only
    exact ⟨fun _ => rfl, fun tomorrow e _ _ => rfl,
      fun w2 h2 hne => absurd h2.symm hne⟩
  | error e0 =>
    dsimp only
    cases hca : checked_add_days w.last_update 1 with
    | none =>
      dsimp only
      exact ⟨fun _ => rfl, fun tomorrow e ht _ => Option.noConfusion ht,
        fun w2 h2 hne => absurd h2.symm hne⟩
    | some t =>
      dsimp only
      cases hnw : new astro w.lat w.long t m2 with
      | error e1 =>
        dsimp only
        exact ⟨fun hc => Option.noConfusion hc, fun tomorrow e _ _ => rfl,
          fun w2 h2 hne => absurd h2.symm hne⟩
      | ok w2h =>
        dsimp only
        refine ⟨fun hc => Option.noConfusion hc,
          fun tomorrow e hteq hneweq => ?_, fun w2 h2 hne => ?_⟩
        · injection hteq with hteq2
          subst hteq2
          rw [hnw] at hneweq
          exact Except.noConfusion hneweq
        · exact ⟨t, rfl, h2 ▸ hnw⟩

/-- Witness for the amended C10 theorem: date overflow leaves the window
untouched. -/
theorem c10_state_witness : (update_next astroZero wOver 10 10 10).2 = wOver :=
  (c10_state_on_error astroZero wOver 10 10 10).1 (by decide)

end CosmicTheme
